import Mathlib

/-!
Verification development for the Empire Labs chat repository.

The repository consists of a browser chat widget (`src/web/widget.js`),
a PowerShell launch script for the backend server, a PowerShell
knowledge-base refresh script, and static knowledge-base content.
This file shallowly embeds the widget's `send` routine, the scripts'
environment-variable assignments and control flow, and (modelled from
the specification, since the server implementation is absent from the
repository) the Session Manager's `get_or_create` operation.
-/

namespace ChadSpec

/-- A JavaScript string-or-undefined value, as stored in the widget's
`session_id` variable and in the fields of a parsed JSON response
object (a missing field reads as `undefined`). -/
inductive JStr where
  | undef : JStr
  | str : String → JStr
deriving DecidableEq, Repr

/-- String coercion JavaScript applies when a value is concatenated
into text or passed to `localStorage.setItem`: `undefined` becomes the
literal text "undefined". -/
def display : JStr → String
  | JStr.undef => "undefined"
  | JStr.str s => s

/-- The JavaScript expression `v || fb` for a string-or-undefined `v`
with string fallback `fb`: the fallback is used when `v` is `undefined`
or the empty string (both falsy). -/
def jsStringOr (v : JStr) (fb : String) : String :=
  match v with
  | JStr.undef => fb
  | JStr.str s => if s = "" then fb else s

/-- The JavaScript expression `v || fb` for an optional string `v`
(absent models `null`/`undefined`): used for `window.EMPIRELABS_CHAT_API`
and `localStorage.getItem`. -/
def jsOptOr (v : Option String) (fb : String) : String :=
  match v with
  | none => fb
  | some s => if s = "" then fb else s

/-- JavaScript `String.prototype.trim()`: strip leading and trailing
whitespace. -/
def jsTrim (s : String) : String :=
  String.mk (((s.data.dropWhile Char.isWhitespace).reverse.dropWhile
    Char.isWhitespace).reverse)

/-- The character-level effect of `.replace(/\/$/, "")`: remove the
final character when it is a slash (the regex matches at most one
trailing slash). -/
def stripCh (l : List Char) : List Char :=
  if l.getLast? = some '/' then l.dropLast else l

/-- `s.replace(/\/$/, "")` on a string. -/
def stripTrailingSlash (s : String) : String :=
  String.mk (stripCh s.data)

/-- The widget's page-level configuration inputs:
`window.EMPIRELABS_CHAT_API` and `window.EMPIRELABS_CHAT_KEY`
(absent models an unset global). -/
structure WidgetCfg where
  apiBaseRaw : Option String
  apiKeyRaw : Option String
deriving DecidableEq, Repr

/-- `CFG.apiBase = (window.EMPIRELABS_CHAT_API || "http://127.0.0.1:8787").replace(/\/$/, "")`. -/
def apiBase (c : WidgetCfg) : String :=
  stripTrailingSlash (jsOptOr c.apiBaseRaw "http://127.0.0.1:8787")

/-- `CFG.apiKey = (window.EMPIRELABS_CHAT_KEY || "")`. -/
def apiKey (c : WidgetCfg) : String :=
  jsOptOr c.apiKeyRaw ""

/-- The request URL `CFG.apiBase + "/api/chat"`. -/
def chatUrl (c : WidgetCfg) : String :=
  apiBase c ++ "/api/chat"

/-- The HTTP request the widget's `fetch` call issues: method, URL, the
headers built by `Object.assign({"Content-Type": ...}, CFG.apiKey ? {"x-api-key": CFG.apiKey} : {})`,
and the fields of the `JSON.stringify({message: msg, session_id})` body. -/
structure ChatRequest where
  method : String
  url : String
  contentType : String
  xApiKey : Option String
  message : String
  session_id : JStr
deriving DecidableEq, Repr

/-- The body of an HTTP response as seen through `await res.json()`:
either a parsed JSON object (fields `detail`, `reply`, `session_id`,
each possibly absent) or a rejection of the parse with an error
message. -/
inductive RespBody where
  | json : JStr → JStr → JStr → RespBody
  | parseFail : String → RespBody
deriving DecidableEq, Repr

/-- The `detail` field of a parsed body. -/
def RespBody.detail : RespBody → JStr
  | RespBody.json d _ _ => d
  | RespBody.parseFail _ => JStr.undef

/-- An HTTP response: status code and body. -/
structure HttpResp where
  status : Nat
  body : RespBody
deriving DecidableEq, Repr

/-- `Response.ok`: true exactly when the status is in the 2xx range. -/
def resOk (r : HttpResp) : Bool :=
  decide (200 ≤ r.status) && decide (r.status < 300)

/-- The outcome of the widget's `fetch` call: either the fetch itself
rejects (network error, carrying the error message) or a response
arrives. -/
inductive FetchOutcome where
  | netError : String → FetchOutcome
  | response : HttpResp → FetchOutcome
deriving DecidableEq, Repr

/-- The widget's mutable state: the `session_id` variable, the
`localStorage` entry "empirelabs_chat_session" (absent models no
entry), the text box contents, the conversation display as a list of
(role, text) messages, the send button's disabled flag, and whether the
text box holds focus. -/
structure WidgetState where
  session : JStr
  storage : Option String
  textBox : String
  conv : List (String × String)
  sendDisabled : Bool
  focusedInput : Bool
deriving DecidableEq, Repr

/-- The initial value of the widget's `session_id` variable:
`localStorage.getItem("empirelabs_chat_session") || ""`. -/
def initSession (stored : Option String) : JStr :=
  JStr.str (jsOptOr stored "")

/-- The widget's `send` routine, as a function of the pre-state and the
outcome of the (at most one) `fetch` it performs.  Returns the
post-state and the request issued, if any.  Mirrors `src/web/widget.js`
lines 61-87: trim and early-return on empty; clear the text box,
disable the button, append the user message; fetch; `await res.json()`
runs before the `res.ok` check, so an unparseable body throws on any
status; on 2xx store the returned session id and append the bot reply;
on non-2xx throw `data.detail || "Request failed"`; every throw is
caught and appended as an "Error" message; the `finally` block
re-enables the button and focuses the text box. -/
def send (c : WidgetCfg) (st : WidgetState) (o : FetchOutcome) :
    WidgetState × Option ChatRequest :=
  if jsTrim st.textBox = "" then (st, none)
  else
    let msg := jsTrim st.textBox
    let req : ChatRequest :=
      { method := "POST"
        url := chatUrl c
        contentType := "application/json"
        xApiKey := if apiKey c = "" then none else some (apiKey c)
        message := msg
        session_id := st.session }
    let stSent : WidgetState :=
      { st with textBox := "", sendDisabled := true,
                conv := st.conv ++ [("You", msg)] }
    let stTried : WidgetState :=
      match o with
      | FetchOutcome.netError m =>
          { stSent with conv := stSent.conv ++ [("Error", m)] }
      | FetchOutcome.response r =>
          match r.body with
          | RespBody.parseFail m =>
              { stSent with conv := stSent.conv ++ [("Error", m)] }
          | RespBody.json detail reply sid =>
              if resOk r then
                { stSent with session := sid,
                              storage := some (display sid),
                              conv := stSent.conv ++ [("Bot", display reply)] }
              else
                { stSent with conv :=
                    stSent.conv ++ [("Error", jsStringOr detail "Request failed")] }
    ({ stTried with sendDisabled := false, focusedInput := true }, some req)

/-- The text the widget renders as an "Error" message for a failed
request body: the JSON parse rejection's message when the body does not
parse, otherwise `data.detail || "Request failed"`. -/
def respErrText : RespBody → String
  | RespBody.parseFail m => m
  | RespBody.json d _ _ => jsStringOr d "Request failed"

/-- The text the widget renders as an "Error" message for a failed
fetch outcome. -/
def errText : FetchOutcome → String
  | FetchOutcome.netError m => m
  | FetchOutcome.response r => respErrText r.body

/-- Whether a fetch outcome takes the widget through its catch block:
a network error, an unparseable body, or a non-2xx status. -/
def isFailure : FetchOutcome → Bool
  | FetchOutcome.netError _ => true
  | FetchOutcome.response r =>
      match r.body with
      | RespBody.parseFail _ => true
      | RespBody.json _ _ _ => !resOk r

/-- C1: for every non-empty (after trimming) message, `send` issues
exactly one POST request to `apiBase + "/api/chat"` whose body carries
the trimmed message and the stored session id, with an x-api-key header
exactly when an API key is configured. -/
theorem c1_send_request_shape (c : WidgetCfg) (st : WidgetState)
    (o : FetchOutcome) (h : jsTrim st.textBox ≠ "") :
    ∃ req : ChatRequest,
      (send c st o).2 = some req ∧
      req.method = "POST" ∧
      req.url = apiBase c ++ "/api/chat" ∧
      req.message = jsTrim st.textBox ∧
      req.session_id = st.session ∧
      (req.xApiKey.isSome ↔ apiKey c ≠ "") ∧
      (∀ k, req.xApiKey = some k → k = apiKey c) := by
  unfold send
  rw [if_neg h]
  refine ⟨_, rfl, rfl, rfl, rfl, rfl, ?_, ?_⟩
  · by_cases hk : apiKey c = "" <;> simp [hk]
  · intro k hk
    by_cases hke : apiKey c = ""
    · simp [hke] at hk
    · simp only [hke, if_false] at hk
      exact (Option.some_inj.mp hk).symm

/-- Witness for C1 at a concrete input. -/
theorem c1_send_request_shape_witness :
    ∃ req : ChatRequest,
      (send { apiBaseRaw := some "http://example.com/", apiKeyRaw := some "k1" }
            { session := JStr.str "sess9", storage := some "sess9",
              textBox := "  hello  ", conv := [], sendDisabled := false,
              focusedInput := false }
            (FetchOutcome.netError "Failed to fetch")).2 = some req ∧
      req.method = "POST" ∧
      req.url = apiBase { apiBaseRaw := some "http://example.com/", apiKeyRaw := some "k1" }
                  ++ "/api/chat" ∧
      req.message = jsTrim "  hello  " ∧
      req.session_id = JStr.str "sess9" ∧
      (req.xApiKey.isSome ↔
        apiKey { apiBaseRaw := some "http://example.com/", apiKeyRaw := some "k1" } ≠ "") ∧
      (∀ k, req.xApiKey = some k →
        k = apiKey { apiBaseRaw := some "http://example.com/", apiKeyRaw := some "k1" }) :=
  c1_send_request_shape _ _ _ (by decide)

/-- C9: when the text box is empty or whitespace-only, `send` issues no
request and leaves the whole widget state (conversation, session,
storage, text box, button, focus) unchanged. -/
theorem c9_empty_message_noop (c : WidgetCfg) (st : WidgetState)
    (o : FetchOutcome) (h : jsTrim st.textBox = "") :
    send c st o = (st, none) := by
  simp [send, h]

/-- Witness for C9 at a concrete input: a whitespace-only text box. -/
theorem c9_empty_message_noop_witness :
    send { apiBaseRaw := none, apiKeyRaw := none }
         { session := JStr.str "abc", storage := some "abc",
           textBox := "   ", conv := [("Bot", "Hi")], sendDisabled := false,
           focusedInput := false }
         (FetchOutcome.netError "x")
      = ({ session := JStr.str "abc", storage := some "abc",
           textBox := "   ", conv := [("Bot", "Hi")], sendDisabled := false,
           focusedInput := false }, none) :=
  c9_empty_message_noop _ _ _ (by decide)

/-- C2: after a 2xx response whose parsed body carries a session id,
the widget stores that id in its session variable and in localStorage,
and every subsequent `send` that issues a request supplies exactly that
id in its body. -/
theorem c2_session_roundtrip (c : WidgetCfg) (st : WidgetState)
    (r : HttpResp) (d rep : JStr) (s : String)
    (hok : resOk r = true)
    (hb : r.body = RespBody.json d rep (JStr.str s))
    (h : jsTrim st.textBox ≠ "") :
    (send c st (FetchOutcome.response r)).1.session = JStr.str s ∧
    (send c st (FetchOutcome.response r)).1.storage = some s ∧
    ∀ (m : String) (o2 : FetchOutcome), jsTrim m ≠ "" →
      ∃ req : ChatRequest,
        (send c { (send c st (FetchOutcome.response r)).1 with textBox := m }
              o2).2 = some req ∧
        req.session_id = JStr.str s := by
  have h1 : (send c st (FetchOutcome.response r)).1.session = JStr.str s := by
    unfold send
    rw [if_neg h]
    simp [hb, hok]
  have h2 : (send c st (FetchOutcome.response r)).1.storage = some s := by
    unfold send
    rw [if_neg h]
    simp [hb, hok, display]
  refine ⟨h1, h2, ?_⟩
  intro m o2 hm
  unfold send
  rw [if_neg hm]
  exact ⟨_, rfl, h1⟩

/-- Witness for C2 at a concrete input. -/
theorem c2_session_roundtrip_witness :
    (send { apiBaseRaw := none, apiKeyRaw := none }
          { session := JStr.str "old", storage := some "old",
            textBox := "hi", conv := [], sendDisabled := false,
            focusedInput := false }
          (FetchOutcome.response (HttpResp.mk 200 (RespBody.json JStr.undef (JStr.str "Hello!") (JStr.str "fresh7"))))).1.session = JStr.str "fresh7" ∧
    (send { apiBaseRaw := none, apiKeyRaw := none }
          { session := JStr.str "old", storage := some "old",
            textBox := "hi", conv := [], sendDisabled := false,
            focusedInput := false }
          (FetchOutcome.response (HttpResp.mk 200 (RespBody.json JStr.undef (JStr.str "Hello!") (JStr.str "fresh7"))))).1.storage = some "fresh7" ∧
    ∀ (m : String) (o2 : FetchOutcome), jsTrim m ≠ "" →
      ∃ req : ChatRequest,
        (send { apiBaseRaw := none, apiKeyRaw := none }
              { (send { apiBaseRaw := none, apiKeyRaw := none }
                    { session := JStr.str "old", storage := some "old",
                      textBox := "hi", conv := [], sendDisabled := false,
                      focusedInput := false }
                    (FetchOutcome.response (HttpResp.mk 200 (RespBody.json JStr.undef (JStr.str "Hello!") (JStr.str "fresh7"))))).1 with textBox := m }
              o2).2 = some req ∧
        req.session_id = JStr.str "fresh7" :=
  c2_session_roundtrip _ _ _ JStr.undef (JStr.str "Hello!") "fresh7"
    (by decide) (by decide) (by decide)

/-- C3 counterexample: a non-2xx response whose body is not JSON.  The
widget renders the JSON parse rejection's message as the error, not the
fallback "Request failed", even though no `detail` field is present. -/
theorem c3_counterexample :
    (send { apiBaseRaw := none, apiKeyRaw := none }
          { session := JStr.str "abc", storage := some "abc",
            textBox := "hello", conv := [], sendDisabled := false,
            focusedInput := false }
          (FetchOutcome.response (HttpResp.mk 500 (RespBody.parseFail "Unexpected end of JSON input")))).1.conv
      = [("You", "hello"), ("Error", "Unexpected end of JSON input")] ∧
    RespBody.detail (RespBody.parseFail "Unexpected end of JSON input")
      = JStr.undef ∧
    ("Error", "Request failed") ∉
      (send { apiBaseRaw := none, apiKeyRaw := none }
            { session := JStr.str "abc", storage := some "abc",
              textBox := "hello", conv := [], sendDisabled := false,
              focusedInput := false }
            (FetchOutcome.response (HttpResp.mk 500 (RespBody.parseFail "Unexpected end of JSON input")))).1.conv := by
  decide

/-- C3 as amended: for every non-2xx response, the widget leaves the
session id and localStorage unchanged and renders no bot reply; the
error text rendered is the body's `detail` when that field is a
non-empty string, "Request failed" when the body parses but `detail` is
absent or empty, and the parse rejection's message when the body does
not parse as JSON. -/
theorem c3_non2xx_failure_handling (c : WidgetCfg) (st : WidgetState)
    (r : HttpResp) (hok : resOk r = false) (h : jsTrim st.textBox ≠ "") :
    (send c st (FetchOutcome.response r)).1.session = st.session ∧
    (send c st (FetchOutcome.response r)).1.storage = st.storage ∧
    (send c st (FetchOutcome.response r)).1.conv
      = st.conv ++ [("You", jsTrim st.textBox),
                    ("Error", respErrText r.body)] := by
  cases hb : r.body with
  | parseFail m =>
    unfold send
    rw [if_neg h]
    simp [hb, respErrText]
  | json d rep sid =>
    unfold send
    rw [if_neg h]
    simp [hb, hok, respErrText]

/-- Witness for the amended C3 at a concrete input: status 404 with a
parsed body whose `detail` is "no such route". -/
theorem c3_non2xx_failure_handling_witness :
    (send { apiBaseRaw := none, apiKeyRaw := none }
          { session := JStr.str "abc", storage := some "abc",
            textBox := "hello", conv := [], sendDisabled := false,
            focusedInput := false }
          (FetchOutcome.response (HttpResp.mk 404 (RespBody.json (JStr.str "no such route") JStr.undef JStr.undef)))).1.session = JStr.str "abc" ∧
    (send { apiBaseRaw := none, apiKeyRaw := none }
          { session := JStr.str "abc", storage := some "abc",
            textBox := "hello", conv := [], sendDisabled := false,
            focusedInput := false }
          (FetchOutcome.response (HttpResp.mk 404 (RespBody.json (JStr.str "no such route") JStr.undef JStr.undef)))).1.storage = some "abc" ∧
    (send { apiBaseRaw := none, apiKeyRaw := none }
          { session := JStr.str "abc", storage := some "abc",
            textBox := "hello", conv := [], sendDisabled := false,
            focusedInput := false }
          (FetchOutcome.response (HttpResp.mk 404 (RespBody.json (JStr.str "no such route") JStr.undef JStr.undef)))).1.conv
      = [] ++ [("You", jsTrim "hello"),
               ("Error", respErrText (RespBody.json (JStr.str "no such route")
                  JStr.undef JStr.undef))] :=
  c3_non2xx_failure_handling _ _ _ (by decide) (by decide)

/-- C10: every `send` that issues a request ends with the button
re-enabled and the text box focused, whatever the outcome; and every
failing outcome (network error, unparseable body, non-2xx status) is
rendered as an "Error" message appended to the conversation — `send` is
a total function, so no exception escapes. -/
theorem c10_send_always_recovers (c : WidgetCfg) (st : WidgetState)
    (o : FetchOutcome) (h : jsTrim st.textBox ≠ "") :
    (send c st o).1.sendDisabled = false ∧
    (send c st o).1.focusedInput = true ∧
    (isFailure o = true →
      (send c st o).1.conv
        = st.conv ++ [("You", jsTrim st.textBox), ("Error", errText o)]) := by
  unfold send
  rw [if_neg h]
  refine ⟨?_, ?_, ?_⟩
  · cases o with
    | netError m => rfl
    | response r =>
      cases hb : r.body with
      | parseFail m => simp [hb]
      | json d rep sid =>
        by_cases hok : resOk r = true <;> simp [hb, hok]
  · cases o with
    | netError m => rfl
    | response r =>
      cases hb : r.body with
      | parseFail m => simp [hb]
      | json d rep sid =>
        by_cases hok : resOk r = true <;> simp [hb, hok]
  · intro hf
    cases o with
    | netError m => simp [errText]
    | response r =>
      cases hb : r.body with
      | parseFail m => simp [errText, respErrText, hb]
      | json d rep sid =>
        have hok : resOk r = false := by
          simp [isFailure, hb] at hf
          exact hf
        simp [errText, respErrText, hb, hok]

/-- Witness for C10 at a concrete input: a network error. -/
theorem c10_send_always_recovers_witness :
    (send { apiBaseRaw := none, apiKeyRaw := none }
          { session := JStr.str "abc", storage := some "abc",
            textBox := "ping", conv := [], sendDisabled := false,
            focusedInput := false }
          (FetchOutcome.netError "Failed to fetch")).1.sendDisabled = false ∧
    (send { apiBaseRaw := none, apiKeyRaw := none }
          { session := JStr.str "abc", storage := some "abc",
            textBox := "ping", conv := [], sendDisabled := false,
            focusedInput := false }
          (FetchOutcome.netError "Failed to fetch")).1.focusedInput = true ∧
    (isFailure (FetchOutcome.netError "Failed to fetch") = true →
      (send { apiBaseRaw := none, apiKeyRaw := none }
            { session := JStr.str "abc", storage := some "abc",
              textBox := "ping", conv := [], sendDisabled := false,
              focusedInput := false }
            (FetchOutcome.netError "Failed to fetch")).1.conv
        = [] ++ [("You", jsTrim "ping"),
                 ("Error", errText (FetchOutcome.netError "Failed to fetch"))]) :=
  c10_send_always_recovers _ _ _ (by decide)

/-- An effectful statement of the server launch script (`run` script,
PowerShell): an environment-variable assignment, a working-directory
change, or the final uvicorn invocation with its host and port
arguments. -/
inductive ScriptAction where
  | setEnv : String → String → ScriptAction
  | setLocation : String → ScriptAction
  | startServer : String → String → ScriptAction
deriving DecidableEq, Repr

/-- The server launch script, statement by statement: the twelve
`$env:` assignments, the `Set-Location`, and the uvicorn start
(`--host 127.0.0.1 --port 8787`). -/
def runScript : List ScriptAction :=
  [ScriptAction.setEnv "OLLAMA_BASE_URL" "http://127.0.0.1:11434",
   ScriptAction.setEnv "MODEL" "qwen2.5:7b-instruct",
   ScriptAction.setEnv "API_KEY" "",
   ScriptAction.setEnv "CORS_ORIGINS" "*",
   ScriptAction.setEnv "HOST" "127.0.0.1",
   ScriptAction.setEnv "PORT" "8787",
   ScriptAction.setEnv "CHAT_TEMP" "0.4",
   ScriptAction.setEnv "NUM_CTX" "4096",
   ScriptAction.setEnv "RAG_ENABLED" "1",
   ScriptAction.setEnv "RAG_DB_PATH" "C:\\VaultSentinel\\EmpireLabs\\ChatBot\\rag_db",
   ScriptAction.setEnv "RAG_COLLECTION" "empirelabs_kb",
   ScriptAction.setEnv "EMBED_MODEL" "nomic-embed-text",
   ScriptAction.setLocation "C:\\VaultSentinel\\EmpireLabs\\ChatBot",
   ScriptAction.startServer "127.0.0.1" "8787"]

/-- The environment assignments a statement list performs, in order. -/
def envAssignments (l : List ScriptAction) : List (String × String) :=
  l.filterMap fun a =>
    match a with
    | ScriptAction.setEnv k v => some (k, v)
    | _ => none

/-- The statements that run before the first server start. -/
def beforeStart (l : List ScriptAction) : List ScriptAction :=
  l.takeWhile fun a =>
    match a with
    | ScriptAction.startServer _ _ => false
    | _ => true

/-- The configuration surface recognized by the specification: one
environment variable per option, in the order the specification lists
the options (base URL, chat model, embedding model, API key, CORS
origins, host, port, temperature, context window, retrieval flag,
collection path, collection name). -/
def claimedConfigKeys : List String :=
  ["OLLAMA_BASE_URL", "MODEL", "EMBED_MODEL", "API_KEY", "CORS_ORIGINS",
   "HOST", "PORT", "CHAT_TEMP", "NUM_CTX", "RAG_ENABLED", "RAG_DB_PATH",
   "RAG_COLLECTION"]

/-- The environment assignments of the knowledge-base refresh script,
in order. -/
def refreshScriptEnv : List (String × String) :=
  [("OLLAMA_BASE_URL", "http://127.0.0.1:11434"),
   ("EMBED_MODEL", "nomic-embed-text"),
   ("KB_SCRAPE_BASE", "https://empirelabs.com.au"),
   ("KB_SCRAPE_MAX_PAGES", "60")]

/-- C7: before starting the server, the launch script assigns an
environment variable for each of the twelve recognized configuration
options and no other, and all of its environment assignments happen
before the server start. -/
theorem c7_launch_script_config_surface :
    List.Perm ((envAssignments (beforeStart runScript)).map Prod.fst)
      claimedConfigKeys ∧
    envAssignments (beforeStart runScript) = envAssignments runScript ∧
    ScriptAction.startServer "127.0.0.1" "8787" ∈ runScript := by
  decide

/-- C6: the launch script (serving/retrieval process) and the refresh
script (ingestion) configure the same embedding model,
"nomic-embed-text". -/
theorem c6_embed_model_agree :
    (envAssignments runScript).lookup "EMBED_MODEL"
      = some "nomic-embed-text" ∧
    refreshScriptEnv.lookup "EMBED_MODEL" = some "nomic-embed-text" ∧
    (envAssignments runScript).lookup "EMBED_MODEL"
      = refreshScriptEnv.lookup "EMBED_MODEL" := by
  decide

/-- The observable environment of a knowledge-base refresh run: whether
the virtual-environment python exists (the script's `Test-Path` check),
and the exit codes the two python steps would return. -/
structure RefreshEnv where
  venvPythonExists : Bool
  scrapeExit : Nat
  ingestExit : Nat
deriving DecidableEq, Repr

/-- A statement of the refresh script: the `Test-Path`-guarded `throw`,
a native python invocation, or a `Write-Host`. -/
inductive PsStmt where
  | requireVenv : PsStmt
  | nativeCall : String → PsStmt
  | writeHost : String → PsStmt
deriving DecidableEq, Repr

/-- Whether a statement raises a terminating error in the given
environment.  The script sets `$ErrorActionPreference = "Stop"`, which
turns cmdlet errors and `throw` into terminating errors; in
PowerShell 7 it does not apply to a native command exiting with a
nonzero code, so `& $Py site_scrape.py` failing does not terminate the
script. -/
def raisesTerminatingError (e : RefreshEnv) : PsStmt → Bool
  | PsStmt.requireVenv => !e.venvPythonExists
  | PsStmt.nativeCall _ => false
  | PsStmt.writeHost _ => false

/-- Sequential execution under terminating errors: statements run in
order; the first statement that raises stops the run. -/
def runPs (e : RefreshEnv) : List PsStmt → List PsStmt
  | [] => []
  | s :: rest =>
      if raisesTerminatingError e s then [s] else s :: runPs e rest

/-- The refresh script, statement by statement. -/
def refreshScript : List PsStmt :=
  [PsStmt.requireVenv,
   PsStmt.writeHost "1) Scraping site -> kb\\scraped ...",
   PsStmt.nativeCall "site_scrape.py",
   PsStmt.writeHost "2) Ingesting kb -> rag_db ...",
   PsStmt.nativeCall "rag_ingest.py",
   PsStmt.writeHost "KB refresh complete."]

/-- The statements a refresh run executes in environment `e`. -/
def refreshRun (e : RefreshEnv) : List PsStmt :=
  runPs e refreshScript

/-- C5 counterexample: the scrape step exits nonzero (a failure of the
first step), yet the ingestion step still runs — under
`$ErrorActionPreference = "Stop"` a native command's nonzero exit code
is not a terminating error in PowerShell 7, so the script does not stop
there. -/
theorem c5_counterexample :
    (RefreshEnv.mk true 1 0).scrapeExit ≠ 0 ∧
    PsStmt.nativeCall "rag_ingest.py" ∈ refreshRun (RefreshEnv.mk true 1 0) ∧
    refreshRun (RefreshEnv.mk true 1 0) = refreshScript := by
  decide

/-- C5 as amended: the refresh script performs the scrape step and then
the ingestion step in a fixed order (ingestion is only ever reached
after the scrape step has run), and a terminating error — the explicit
missing-interpreter `throw` — stops the script before either step; but
a nonzero exit code of the scrape step is not a terminating error and
does not prevent the ingestion step from running. -/
theorem c5_refresh_order (e : RefreshEnv) :
    (e.venvPythonExists = false → refreshRun e = [PsStmt.requireVenv]) ∧
    (e.venvPythonExists = true → refreshRun e = refreshScript) ∧
    (PsStmt.nativeCall "rag_ingest.py" ∈ refreshRun e →
      PsStmt.nativeCall "site_scrape.py" ∈
        (refreshRun e).takeWhile
          (fun s => s != PsStmt.nativeCall "rag_ingest.py")) ∧
    (e.venvPythonExists = true → e.scrapeExit ≠ 0 →
      PsStmt.nativeCall "rag_ingest.py" ∈ refreshRun e) := by
  rcases e with ⟨v, a, b⟩
  cases v with
  | false =>
    refine ⟨fun _ => rfl, ?_, ?_, ?_⟩
    · intro hv; simp at hv
    · intro hmem
      simp [refreshRun, refreshScript, runPs, raisesTerminatingError] at hmem
    · intro hv; simp at hv
  | true =>
    refine ⟨?_, fun _ => rfl, ?_, ?_⟩
    · intro hv; simp at hv
    · intro _
      have hr : refreshRun (RefreshEnv.mk true a b) = refreshScript := rfl
      rw [hr]
      decide
    · intro _ _
      have hr : refreshRun (RefreshEnv.mk true a b) = refreshScript := rfl
      rw [hr]
      decide

/-- Witness for the amended C5 at concrete inputs. -/
theorem c5_refresh_order_witness :
    refreshRun (RefreshEnv.mk false 0 0) = [PsStmt.requireVenv] ∧
    refreshRun (RefreshEnv.mk true 0 0) = refreshScript ∧
    PsStmt.nativeCall "rag_ingest.py" ∈ refreshRun (RefreshEnv.mk true 2 0) :=
  ⟨(c5_refresh_order (RefreshEnv.mk false 0 0)).1 rfl,
   (c5_refresh_order (RefreshEnv.mk true 0 0)).2.1 rfl,
   (c5_refresh_order (RefreshEnv.mk true 2 0)).2.2.2 rfl (by decide)⟩

/-- C8 counterexample: a configured API base ending in two slashes.
The regex strips only one of them, so the join still produces a double
slash in the request URL. -/
theorem c8_counterexample :
    apiBase { apiBaseRaw := some "http://127.0.0.1:8787//", apiKeyRaw := none }
      = "http://127.0.0.1:8787/" ∧
    chatUrl { apiBaseRaw := some "http://127.0.0.1:8787//", apiKeyRaw := none }
      = "http://127.0.0.1:8787//api/chat" ∧
    (apiBase { apiBaseRaw := some "http://127.0.0.1:8787//",
               apiKeyRaw := none }).data.getLast? = some '/' := by
  decide

/-- C8 as amended: with no page-level override the widget's API base is
"http://127.0.0.1:8787", exactly the host and port the launch script
binds; a configured base has a single trailing slash stripped before
"/api/chat" is appended, and the join introduces no double slash
provided the configured base does not end in two consecutive
slashes. -/
theorem c8_default_base_matches_launch (k : Option String) :
    apiBase { apiBaseRaw := none, apiKeyRaw := k } = "http://127.0.0.1:8787" ∧
    (envAssignments runScript).lookup "HOST" = some "127.0.0.1" ∧
    (envAssignments runScript).lookup "PORT" = some "8787" ∧
    "http://" ++ "127.0.0.1" ++ ":" ++ "8787"
      = apiBase { apiBaseRaw := none, apiKeyRaw := k } ∧
    chatUrl { apiBaseRaw := none, apiKeyRaw := k }
      = "http://127.0.0.1:8787/api/chat" ∧
    (∀ s : String, s ≠ "" →
      apiBase { apiBaseRaw := some s, apiKeyRaw := k }
        = stripTrailingSlash s) ∧
    ∀ s : String, s ≠ "" →
      ¬(s.data.getLast? = some '/' ∧ s.data.dropLast.getLast? = some '/') →
      (apiBase { apiBaseRaw := some s, apiKeyRaw := k }).data.getLast?
        ≠ some '/' := by
  refine ⟨rfl, by decide, by decide, rfl, rfl, ?_, ?_⟩
  · intro s hne
    simp [apiBase, jsOptOr, hne]
  · intro s hne hnot
    have hb : apiBase { apiBaseRaw := some s, apiKeyRaw := k }
        = String.mk (stripCh s.data) := by
      simp [apiBase, jsOptOr, stripTrailingSlash, hne]
    rw [hb]
    show (stripCh s.data).getLast? ≠ some '/'
    by_cases hlast : s.data.getLast? = some '/'
    · simp only [stripCh, hlast, if_true]
      exact fun hd => hnot ⟨hlast, hd⟩
    · simp only [stripCh, hlast, if_false]
      exact hlast

/-- Witness for the amended C8 at concrete inputs. -/
theorem c8_default_base_matches_launch_witness :
    apiBase { apiBaseRaw := none, apiKeyRaw := none }
      = "http://127.0.0.1:8787" ∧
    (apiBase { apiBaseRaw := some "http://example.com/",
               apiKeyRaw := none }).data.getLast? ≠ some '/' :=
  ⟨(c8_default_base_matches_launch none).1,
   (c8_default_base_matches_launch none).2.2.2.2.2.2 "http://example.com/"
     (by decide) (by decide)⟩

/-- A conversation history: (role, text) turns, newest last. -/
abbrev History := List (String × String)

/-- The Session Manager store: session id to history. -/
abbrev SessionStore := List (String × History)

/-- The session ids present in a store. -/
def sessionIds (store : SessionStore) : List String :=
  store.map Prod.fst

/-- A deterministic fresh identifier: one character longer than every
id in the store, hence distinct from all of them and never empty. -/
def freshId (store : SessionStore) : String :=
  String.mk (List.replicate
    (((sessionIds store).map String.length).foldr max 0 + 1) 's')

/-- Modelled from the spec: the Session Manager operation
`get_or_create(session_id?) -> session_id, history` of section 4.4 —
the server implementation is absent from this repository, only its
launch script and its browser client are present.  Following the
specification's words: if no session id is supplied, or the supplied id
does not exist in the store, generate a new unique identifier and start
an empty history; never error on an unknown id. -/
def get_or_create (store : SessionStore) (sid : Option String) :
    Except String (String × History) :=
  match sid with
  | none => Except.ok (freshId store, [])
  | some s =>
      match store.lookup s with
      | some h => Except.ok (s, h)
      | none => Except.ok (freshId store, [])

theorem mem_le_foldr_max {l : List Nat} {x : Nat} (h : x ∈ l) :
    x ≤ l.foldr max 0 := by
  induction l with
  | nil => cases h
  | cons y ys ih =>
    rcases List.mem_cons.mp h with h1 | h2
    · subst h1; exact le_max_left _ _
    · exact le_trans (ih h2) (le_max_right _ _)

theorem freshId_length (store : SessionStore) :
    (freshId store).length
      = ((sessionIds store).map String.length).foldr max 0 + 1 := by
  show (List.replicate
    (((sessionIds store).map String.length).foldr max 0 + 1) 's').length = _
  simp

theorem freshId_not_mem (store : SessionStore) :
    freshId store ∉ sessionIds store := by
  intro hmem
  have hlen : (freshId store).length
      ∈ (sessionIds store).map String.length :=
    List.mem_map_of_mem _ hmem
  have hle := mem_le_foldr_max hlen
  have heq := freshId_length store
  omega

theorem freshId_ne_empty (store : SessionStore) :
    freshId store ≠ "" := by
  intro h
  have := congrArg String.length h
  rw [freshId_length store] at this
  simp at this

/-- C4: a missing, empty, or unknown session id never makes
`get_or_create` fail — it yields a fresh, valid (nonempty, unused)
session id with empty history; with any supplied id the operation
succeeds; and the widget's first request indeed supplies the empty
string as its session id. -/
theorem c4_stale_session_never_fails (store : SessionStore)
    (sid : Option String)
    (h : ∀ s, sid = some s → store.lookup s = none) :
    get_or_create store sid = Except.ok (freshId store, []) ∧
    freshId store ∉ sessionIds store ∧
    freshId store ≠ "" ∧
    (∀ sid2 : Option String, ∃ r, get_or_create store sid2 = Except.ok r) ∧
    initSession none = JStr.str "" := by
  refine ⟨?_, freshId_not_mem store, freshId_ne_empty store, ?_, rfl⟩
  · cases sid with
    | none => rfl
    | some s => simp [get_or_create, h s rfl]
  · intro sid2
    cases sid2 with
    | none => exact ⟨_, rfl⟩
    | some s =>
      cases hl : store.lookup s with
      | none =>
        refine ⟨(freshId store, []), ?_⟩
        simp [get_or_create, hl]
      | some hist =>
        refine ⟨(s, hist), ?_⟩
        simp [get_or_create, hl]

/-- Witness for C4 at a concrete input: an unknown id (as the widget's
first request, which sends the empty string, presents). -/
theorem c4_stale_session_never_fails_witness :
    get_or_create [("abc", [("user", "hi")])] (some "")
      = Except.ok (freshId [("abc", [("user", "hi")])], []) ∧
    freshId [("abc", [("user", "hi")])]
      ∉ sessionIds [("abc", [("user", "hi")])] ∧
    freshId [("abc", [("user", "hi")])] ≠ "" ∧
    (∀ sid2 : Option String,
      ∃ r, get_or_create [("abc", [("user", "hi")])] sid2 = Except.ok r) ∧
    initSession none = JStr.str "" :=
  c4_stale_session_never_fails [("abc", [("user", "hi")])] (some "")
    (by intro s hs; cases hs; rfl)

end ChadSpec
